import Mathlib

/-
Verification of the NEXUSSENTINEL request-pipeline core.

Shallow embedding of:
  src/src/config/index.ts        (configuration resolver getConfig)
  src/src/middleware/requestId.ts (correlation middleware)
  src/src/server.ts              (pipeline, rate limiting, metrics,
                                  handlers, logger redaction, shutdown)

JavaScript machine details (Number coercion, truthiness, the nullish
operator) are modelled explicitly where the source relies on them.
-/

namespace NexusSentinel

/-! ## JavaScript value model -/

/-- JavaScript number restricted to the integer fragment plus NaN.
The source only ever produces integers or NaN from its numeric
environment fields; fractional literals are not modelled, so theorems
quantifying over parses are about integer-or-unparsable inputs. -/
inductive JSNum where
  | nan : JSNum
  | int : Int → JSNum
deriving DecidableEq, Repr

/-- JavaScript truthiness of a number: NaN and 0 are falsy. -/
def JSNum.truthy : JSNum → Bool
  | .nan => false
  | .int n => n != 0

/-- The x || y idiom on numbers: x when truthy, else the fallback. -/
def JSNum.orDefault (x : JSNum) (d : Int) : JSNum :=
  if x.truthy then x else .int d

/-- ASCII whitespace, the relevant fragment of what trim removes. -/
def isSpaceChar (c : Char) : Bool :=
  c = ' ' || c = '\t' || c = '\n' || c = '\r'

/-- Trim on the character list of a string (structural, so that the
kernel can evaluate it, unlike the position-based library trim). -/
def trimChars (cs : List Char) : List Char :=
  ((cs.dropWhile isSpaceChar).reverse.dropWhile isSpaceChar).reverse

/-- String trim via trimChars. -/
def strTrim (s : String) : String := String.mk (trimChars s.data)

/-- ASCII lower-casing of one character. -/
def lowerChar (c : Char) : Char :=
  if 65 ≤ c.toNat ∧ c.toNat ≤ 90 then Char.ofNat (c.toNat + 32) else c

/-- ASCII lower-casing of a string. -/
def strLower (s : String) : String := String.mk (s.data.map lowerChar)

/-- Whether the first list is an initial segment of the second. -/
def leadChars : List Char → List Char → Bool
  | [], _ => true
  | _ :: _, [] => false
  | a :: as, b :: bs => a = b && leadChars as bs

/-- Whether p is an initial segment of s. -/
def strLeads (p s : String) : Bool := leadChars p.data s.data

/-- Split a character list on commas. -/
def splitCommaChars : List Char → List (List Char)
  | [] => [[]]
  | c :: cs =>
      if c = ',' then [] :: splitCommaChars cs
      else
        match splitCommaChars cs with
        | [] => [[c]]
        | g :: gs => (c :: g) :: gs

/-- The .split(",") call of the configuration resolver. -/
def splitComma (s : String) : List String :=
  (splitCommaChars s.data).map String.mk

/-- Digits of a decimal numeral, left to right. -/
def decDigits? : List Char → Option Nat
  | [] => none
  | cs => cs.foldl (fun acc c =>
      match acc with
      | none => none
      | some n => if c.isDigit then some (n * 10 + (c.toNat - 48)) else none)
      (some 0)

/-- Number(s) on a string, integer fragment: trim, empty gives 0,
an optional sign followed by decimal digits gives that integer,
anything else gives NaN. -/
def jsNumberOfString (s : String) : JSNum :=
  let t := trimChars s.data
  if t = [] then .int 0
  else
    match t with
    | '-' :: rest =>
        match decDigits? rest with
        | some n => .int (-(n : Int))
        | none => .nan
    | '+' :: rest =>
        match decDigits? rest with
        | some n => .int (n : Int)
        | none => .nan
    | cs =>
        match decDigits? cs with
        | some n => .int (n : Int)
        | none => .nan

/-- Number(x) on a possibly-undefined string: Number(undefined) is NaN. -/
def jsNumberOfEnv : Option String → JSNum
  | none => .nan
  | some s => jsNumberOfString s

/-! ## Configuration resolver (src/src/config/index.ts) -/

/-- Process environment: a partial map from variable name to value. -/
def EnvMap := String → Option String

/-- String || default idiom: the empty string is falsy. -/
def strOrDefault (x : Option String) (d : String) : String :=
  match x with
  | some s => if s = "" then d else s
  | none => d

structure RateLimitCfg where
  globalPerMin : JSNum
  authPerMin : JSNum
deriving DecidableEq, Repr

structure SecurityCfg where
  enableHelmet : Bool
  enableCSP : Bool
  enableHSTS : Bool
deriving DecidableEq, Repr

structure LoggingCfg where
  level : String
  pretty : Bool
  includeBodies : Bool
deriving DecidableEq, Repr

structure BuildCfg where
  commit : Option String
  node : String
deriving DecidableEq, Repr

/-- The immutable configuration snapshot (interface AppConfig). The
env field is a raw string: the source casts process.env.NODE_ENV
without validating membership in the production/development/test union. -/
structure AppConfig where
  env : String
  serviceName : String
  host : String
  port : JSNum
  corsOrigins : List String
  rateLimit : RateLimitCfg
  security : SecurityCfg
  logging : LoggingCfg
  build : BuildCfg
deriving DecidableEq, Repr

/-- Split on commas, trim each piece, drop empties (the
.split(",").map(trim).filter(Boolean) chain). -/
def corsSplit (s : String) : List String :=
  ((splitComma s).map strTrim).filter (fun p => p ≠ "")

/-- getConfig, translated clause by clause from src/src/config/index.ts.
nodeVersion stands for process.version, which the source copies verbatim. -/
def getConfig (e : EnvMap) (nodeVersion : String := "v20.0.0") : AppConfig :=
  let env := strOrDefault (e "NODE_ENV") "development"
  let isProd := env = "production"
  let isDev := env = "development"
  let isTest := env = "test"
  let serviceName := strOrDefault (e "SERVICE_NAME")
    (if isProd then "nexus-sentinel" else if isDev then "local-dev" else "test-suite")
  let corsEnv := corsSplit (strOrDefault (e "CORS_ORIGINS") (if isProd then "" else "*"))
  let corsOrigins := if corsEnv.length = 0 then [] else corsEnv
  let rateDefaultEnv := (e "RATE_LIMIT_DEFAULT_PER_MIN").or (e "RATE_LIMIT_PER_MINUTE")
  let rateAuthEnv := (e "RATE_LIMIT_AUTH_PER_MIN").or (e "RATE_LIMIT_AUTHZ_PER_MINUTE")
  let rateLimitDefault :=
    match rateDefaultEnv with
    | some s => jsNumberOfString s
    | none => .int (if isProd then 100 else if isDev then 1000 else 0)
  let rateLimitAuth :=
    match rateAuthEnv with
    | some s => jsNumberOfString s
    | none => .int (if isProd then 10 else if isDev then 0 else 0)
  { env := env
    serviceName := serviceName
    host := strOrDefault (e "HOST") "0.0.0.0"
    port := (jsNumberOfEnv (e "PORT")).orDefault 200
    corsOrigins := corsOrigins
    rateLimit := { globalPerMin := rateLimitDefault, authPerMin := rateLimitAuth }
    security :=
      { enableHelmet := !isTest
        enableCSP := isProd
        enableHSTS := isProd }
    logging :=
      { level := strOrDefault (e "LOG_LEVEL")
          (if isProd then "info" else if isDev then "debug" else "error")
        pretty := isDev
        includeBodies := isDev }
    build := { commit := e "GIT_COMMIT", node := nodeVersion } }

def isProduction (cfg : AppConfig) : Bool := cfg.env = "production"

def isDevelopment (cfg : AppConfig) : Bool := cfg.env = "development"

def isTestCfg (cfg : AppConfig) : Bool := cfg.env = "test"

/-- Empty process environment. -/
def emptyEnv : EnvMap := fun _ => none

/-- Environment with a single variable set. -/
def envWith (k v : String) : EnvMap := fun q => if q = k then some v else none

/-- Environment with two variables set. -/
def envWith2 (k1 v1 k2 v2 : String) : EnvMap :=
  fun q => if q = k1 then some v1 else if q = k2 then some v2 else none

/-! ## Correlation middleware (src/src/middleware/requestId.ts) -/

/-- The well-known correlation header name (requestIdHeader). -/
def requestIdHeader : String := "x-request-id"

/-- Case-insensitive header lookup, modelling express req.header. -/
def getHeaderValue (headers : List (String × String)) (name : String) : Option String :=
  (headers.find? (fun p => strLower p.1 = strLower name)).map Prod.snd

/-- The identifier the requestId middleware computes: the incoming value
when it is present and truthy and its trim is non-empty, otherwise the
freshly generated UUID (randomUUID() is modelled by the fresh argument;
the source guard is incoming AND incoming.trim().length greater than 0,
and the empty string is falsy). -/
def processRequestId (incoming : Option String) (fresh : String) : String :=
  match incoming with
  | some v => if v ≠ "" ∧ trimChars v.data ≠ [] then v else fresh
  | none => fresh

/-! ## Rate limiter -/

/-- Fixed-window state for one rate-limit class: a counter of requests
seen in the window and the epoch-millisecond instant at which
the window expires. -/
structure WindowState where
  count : Nat
  resetAt : Nat
deriving DecidableEq, Repr

/-- Modelled from the spec: the fixed-window admission step of the
express-rate-limit library called by makeLimiter (the library itself is
not under src/). On each call: if no window is active or the active
window has expired, start a new window with count 1 and admit;
otherwise increment the count and admit if count is at most the
ceiling, else reject. The window is 60 seconds. One counter per class
is kept, matching the data model of the spec. -/
def limiterStep (perMin : Nat) (now : Nat) (st : Option WindowState) :
    Option WindowState × Bool :=
  match st with
  | none => (some ⟨1, now + 60000⟩, true)
  | some w =>
      if w.resetAt ≤ now then
        (some ⟨1, now + 60000⟩, true)
      else
        (some ⟨w.count + 1, w.resetAt⟩, decide (w.count + 1 ≤ perMin))

/-- Standard rate-limit headers sent on a response when a limiter is
active (standardHeaders: true, legacyHeaders: false): the configured
limit, remaining quota, and seconds until the window resets. -/
structure RateHeaders where
  limit : Nat
  remaining : Nat
  reset : Nat
deriving DecidableEq, Repr

/-- The middleware a positive ceiling builds: step the window, and on
rejection halt with status 429 and the standard headers. -/
def limiterDecide (perMin : Nat) (now : Nat) (st : Option WindowState) :
    Option WindowState × Bool × RateHeaders :=
  let (st', ok) := limiterStep perMin now st
  let used := match st' with | some w => w.count | none => 0
  let resetMs := match st' with | some w => w.resetAt - now | none => 0
  (st', ok, ⟨perMin, perMin - min used perMin, (resetMs + 999) / 1000⟩)

/-- A limiter as built by makeLimiter: either the pass-through closure
returned for a non-positive ceiling, or a fixed-window limiter for the
positive ceiling. -/
inductive Limiter where
  | passThrough : Limiter
  | fixedWindow : Nat → Limiter
deriving DecidableEq, Repr

/-- makeLimiter from src/src/server.ts lines 80 to 88: a ceiling that
satisfies perMin less-or-equal 0 yields a middleware that only calls
next(); otherwise the library limiter with a 60 second window and the
given limit is produced. NaN fails the JavaScript comparison and, like
any positive ceiling, reaches the library branch; only integer ceilings
are given a window semantics here. -/
def makeLimiter (perMin : JSNum) : Limiter :=
  let le0 := match perMin with
    | .nan => false
    | .int n => n ≤ 0
  if le0 then .passThrough
  else
    match perMin with
    | .int n => .fixedWindow n.toNat
    | .nan => .fixedWindow 0

/-- Outcome of a limiter middleware on one request: call next(), or
short-circuit with the given status and the standard rate headers. -/
inductive LimOut where
  | next : LimOut
  | reject : Nat → RateHeaders → LimOut
deriving DecidableEq, Repr

/-- Whether the outcome lets the request continue down the pipeline. -/
def LimOut.isNext : LimOut → Bool
  | .next => true
  | .reject _ _ => false

/-- Run a limiter on one request at the given time: the new window
state and the outcome. The pass-through limiter touches no state and
always calls next(); the window limiter rejects over-ceiling requests
with status 429 and the standard headers. -/
def runLimiter (l : Limiter) (now : Nat) (st : Option WindowState) :
    Option WindowState × LimOut :=
  match l with
  | .passThrough => (st, .next)
  | .fixedWindow n =>
      let (st', ok, h) := limiterDecide n now st
      (st', if ok then .next else .reject 429 h)

/-- Run a limiter over a list of request times, collecting admissions. -/
def runLimiterSeq (l : Limiter) (times : List Nat) (st : Option WindowState) :
    Option WindowState × List Bool :=
  match times with
  | [] => (st, [])
  | t :: ts =>
      let (st', out) := runLimiter l t st
      let (stFin, oks) := runLimiterSeq l ts st'
      (stFin, out.isNext :: oks)

/-! ## Requests, responses and the request pipeline (src/src/server.ts) -/

/-- JSON-ish values appearing in the response bodies of the core. -/
inductive JVal where
  | str : String → JVal
  | nat : Nat → JVal
  | bool : Bool → JVal
  | null : JVal
deriving DecidableEq, Repr

/-- A JSON object body, as an ordered field list. -/
abbrev JObj := List (String × JVal)

/-- An inbound request: method, path, headers, the password field of a
JSON body when one is present, and the arrival instant in epoch
milliseconds (Date.now() at middleware time). -/
structure Req where
  method : String
  path : String
  headers : List (String × String)
  bodyPassword : Option String
  now : Nat
deriving Repr

/-- The kind of body a response carries: a JSON object (res.json) or the
metrics exposition text (res.end on the scrape endpoint). -/
inductive ResBody where
  | json : JObj → ResBody
  | exposition : ResBody
deriving DecidableEq, Repr

/-- An outbound response: status, headers set so far, rate headers when
a limiter rejected, and the body. -/
structure Res where
  status : Nat
  headers : List (String × String)
  rate : Option RateHeaders
  body : ResBody
deriving DecidableEq, Repr

/-- One observation of the http_request_duration_ms histogram: labels
(method, route, status) and the measured duration. -/
structure Obs where
  method : String
  route : String
  status : Nat
  duration : Nat
deriving DecidableEq, Repr

/-- Mutable server state shared across requests: the two limiter
windows and the histogram (as its list of recorded observations). -/
structure SrvState where
  limGlobal : Option WindowState
  limAuth : Option WindowState
  hist : List Obs
deriving DecidableEq, Repr

/-- Fresh server state at boot: no windows, empty histogram. -/
def initSrv : SrvState := { limGlobal := none, limAuth := none, hist := [] }

/-- Express mount matching for app.use([p]): the request path is the
mount path or extends it across a slash boundary. -/
def mountMatches (mount path : String) : Bool :=
  path = mount || strLeads (mount ++ "/") path

/-- Whether the auth limiter applies: it is mounted on /auth and /login. -/
def isAuthPath (path : String) : Bool :=
  mountMatches "/auth" path || mountMatches "/login" path

/-- Encode an optional string the way res.json serialises a possibly
undefined field bound in an object literal. -/
def jsonOptStr : Option String → JVal
  | some s => .str s
  | none => .null

/-- GET /readyz handler, src/src/server.ts lines 126 to 131: healthy is
the constant true; the 503 branch would need not-healthy and the
production tier. -/
def readyzHandler (cfg : AppConfig) : Nat × JObj :=
  let healthy := true
  if !healthy && isProduction cfg then (503, [("ok", .bool false)])
  else (200, [("ok", .bool true)])

/-- GET /version handler. -/
def versionHandler (cfg : AppConfig) : Nat × JObj :=
  (200, [("service", .str cfg.serviceName), ("env", .str cfg.env),
         ("node", .str cfg.build.node), ("commit", jsonOptStr cfg.build.commit)])

/-- GET /healthz handler; uptime and ts are ambient clock reads,
passed in. -/
def healthzHandler (uptime ts : Nat) : Nat × JObj :=
  (200, [("ok", .bool true), ("uptime", .nat uptime), ("ts", .nat ts)])

/-- GET / root handler. -/
def rootHandler (ts : Nat) : Nat × JObj :=
  (200, [("name", .str "Nexus Sentinel API"), ("message", .str "Service is running"),
         ("health", .str "/healthz"), ("ready", .str "/readyz"),
         ("version", .str "/version"), ("ts", .nat ts)])

/-- The terminal not-found handler, src/src/server.ts lines 152 to 155:
status 404 with the requested path and the correlation id. -/
def notFoundHandler (path : String) (reqId : Option String) : Nat × JObj :=
  (404, [("error", .str "Not Found"), ("path", .str path),
         ("requestId", jsonOptStr reqId)])

/-- An error value thrown by a handler: its status, message and stack
fields, each possibly undefined (and, per JavaScript, possibly falsy). -/
structure JsError where
  status : Option Int
  message : Option String
  stack : String
deriving Repr

/-- Truthiness of the optional status field: err.status || 500 falls to
500 when the field is absent or 0. -/
def errStatusOr500 : Option Int → Int
  | some n => if n ≠ 0 then n else 500
  | none => 500

/-- Truthiness of the optional message: err.message or the fixed default. -/
def errMessageOrDefault : Option String → String
  | some m => if m ≠ "" then m else "Internal Server Error"
  | none => "Internal Server Error"

/-- The central error handler, src/src/server.ts lines 158 to 166:
status from err.status defaulting to 500, body with the message and
correlation id, and the stack appended only outside production. -/
def errorHandler (cfg : AppConfig) (reqId : Option String) (err : JsError) : Res :=
  let status := errStatusOr500 err.status
  let payload : JObj :=
    [("error", .str (errMessageOrDefault err.message)),
     ("requestId", jsonOptStr reqId)]
    ++ (if !isProduction cfg then [("stack", .str err.stack)] else [])
  { status := status.toNat, headers := [], rate := none, body := .json payload }

/-- Dispatch of the registered GET routes, in registration order, or
none when no route matches: the not-found handler then runs. Returns
the response pair and the matched route template (req.route.path),
which labels the histogram observation. -/
def dispatchRoute (cfg : AppConfig) (req : Req) (uptime ts : Nat) :
    Option ((Nat × JObj) × String) :=
  if req.method = "GET" then
    if req.path = "/version" then some (versionHandler cfg, "/version")
    else if req.path = "/healthz" then some (healthzHandler uptime ts, "/healthz")
    else if req.path = "/readyz" then some (readyzHandler cfg, "/readyz")
    else if req.path = "/metrics" then none
    else if req.path = "/" then some (rootHandler ts, "/")
    else none
  else none

/-- One full pass of a request through the pipeline of src/src/server.ts,
in registration order: correlation middleware, logging (no effect on
the response), body parsing, CORS and helmet (response-header only,
not modelled further), the global limiter, the auth limiter on auth
paths, the metrics timer, the routes, the not-found terminal. duration
is what Date.now() minus start evaluates to when the response
finishes. Routes in this core do not throw, so the error handler is
reached only through errorHandler directly. -/
def handleRequest (cfg : AppConfig) (fresh : String) (uptime ts duration : Nat)
    (st : SrvState) (req : Req) : SrvState × Res :=
  -- requestId middleware: compute the id, set the response header
  let id := processRequestId (getHeaderValue req.headers requestIdHeader) fresh
  let baseHeaders := [(requestIdHeader, id)]
  -- global rate limiter (app.use, line 89)
  let gl := makeLimiter cfg.rateLimit.globalPerMin
  let (gSt, gOut) := runLimiter gl req.now st.limGlobal
  let st1 := { st with limGlobal := gSt }
  match gOut with
  | .reject s h =>
      -- rejection body is the default library message, not inspected here
      (st1, { status := s, headers := baseHeaders, rate := some h,
              body := .json [] })
  | .next =>
    -- auth rate limiter on /auth and /login mounts (line 91)
    let al := makeLimiter cfg.rateLimit.authPerMin
    let (aSt, aOut) :=
      if isAuthPath req.path then runLimiter al req.now st.limAuth
      else (st.limAuth, .next)
    let st2 := { st1 with limAuth := aSt }
    match aOut with
    | .reject s h =>
        (st2, { status := s, headers := baseHeaders, rate := some h,
                body := .json [] })
    | .next =>
      -- metrics timer middleware (lines 102 to 109) wraps what follows:
      -- the finish listener observes (method, route or path, status)
      let routed := dispatchRoute cfg req uptime ts
      let resAndLabel : Res × String :=
        match routed with
        | some ((s, body), tmpl) =>
            ({ status := s, headers := baseHeaders, rate := none,
               body := .json body }, tmpl)
        | none =>
            if req.method = "GET" ∧ req.path = "/metrics" then
              ({ status := 200, headers := baseHeaders, rate := none,
                 body := .exposition }, "/metrics")
            else
              let (s, body) := notFoundHandler req.path (some id)
              ({ status := s, headers := baseHeaders, rate := none,
                 body := .json body }, req.path)
      let res := resAndLabel.1
      let obs : Obs := { method := req.method, route := resAndLabel.2,
                         status := res.status, duration := duration }
      ({ st2 with hist := st2.hist ++ [obs] }, res)

/-- The fields of a JSON response body; the exposition body has none. -/
def jsonFields : ResBody → JObj
  | .json o => o
  | .exposition => []

/-- Pipeline pass for an admitted request whose route handler throws
err: the correlation middleware has set the identifier on the request
and the response header, and the error handler, registered last,
formats the response reading getRequestId(req). -/
def handleThrow (cfg : AppConfig) (fresh : String) (req : Req) (err : JsError) : Res :=
  let id := processRequestId (getHeaderValue req.headers requestIdHeader) fresh
  let res := errorHandler cfg (some id) err
  { res with headers := [(requestIdHeader, id)] }

/-! ## Lifecycle controller (src/src/server.ts lines 174 to 192) -/

/-- Lifecycle phase of the process. -/
inductive Phase where
  | running : Phase
  | shuttingDown : Phase
  | closed : Phase
deriving DecidableEq, Repr

/-- Process-wide lifecycle state: the phase, the number of pending
force-exit timers, and the exit status once process.exit ran. -/
structure LifeState where
  phase : Phase
  pendingTimers : Nat
  exitCode : Option Nat
deriving DecidableEq, Repr

/-- Events driving the lifecycle: a termination signal (SIGINT or
SIGTERM, both bound to shutdown), the close callback firing with
success after the last connection drains, and the 30 second grace
timer firing. -/
inductive LifeEvent where
  | signal : LifeEvent
  | drainComplete : LifeEvent
  | timerFire : LifeEvent
deriving DecidableEq, Repr

/-- One step of the shutdown logic. The signal case runs shutdown():
it always sets a fresh 30 second timer and calls server.close. While
running, close stops the listener and the callback is deferred until
drain. While already shutting down the server is no longer listening,
so close invokes its callback with an error (documented net.Server
behaviour); the callback clears the timer just set and calls
process.exit(1). drainComplete is the close callback succeeding:
clear the timer and exit 0. timerFire is the grace timer elapsing:
exit 1. After process.exit nothing further runs. -/
def lifeStep (s : LifeState) (ev : LifeEvent) : LifeState :=
  if s.exitCode.isSome then s
  else
    match ev with
    | .signal =>
        match s.phase with
        | .running =>
            { phase := .shuttingDown, pendingTimers := s.pendingTimers + 1,
              exitCode := none }
        | .shuttingDown => { s with exitCode := some 1 }
        | .closed => { s with exitCode := some 1 }
    | .drainComplete =>
        match s.phase with
        | .shuttingDown =>
            { phase := .closed, pendingTimers := s.pendingTimers - 1,
              exitCode := some 0 }
        | _ => s
    | .timerFire =>
        if s.pendingTimers > 0 then { s with exitCode := some 1 } else s

/-- Lifecycle state when the socket starts listening. -/
def initLife : LifeState := { phase := .running, pendingTimers := 0, exitCode := none }

/-! ## Structured logger redaction (src/src/server.ts lines 17 to 23) -/

/-- Redaction paths configured on the pino logger. -/
def redactedPaths : List String :=
  ["req.headers.authorization", "req.body.password", "res.body"]

/-- The fixed censor string. -/
def redactionCensor : String := "[REDACTED]"

/-- A structured per-request log record before redaction, with the
fields pino-http serialises: correlation id, method, url, the request
headers including authorization, the request body password field when
bodies are serialised, the response body, status, and the custom
props env and service. -/
structure LogRecord where
  reqId : String
  method : String
  url : String
  headersAuthorization : Option String
  otherHeaders : List (String × String)
  bodyPassword : Option String
  resBody : Option String
  status : Option Nat
  env : String
  service : String
deriving DecidableEq, Repr

/-- Modelled from the spec: pino applies the configured redact paths to
every record before serialisation, replacing each present field by the
censor (the redaction engine lives in the pino library, not under
src/). The configured paths are req.headers.authorization,
req.body.password and res.body, with censor [REDACTED], in every tier. -/
def redactRecord (r : LogRecord) : LogRecord :=
  { r with
    headersAuthorization := r.headersAuthorization.map (fun _ => redactionCensor)
    bodyPassword := r.bodyPassword.map (fun _ => redactionCensor)
    resBody := r.resBody.map (fun _ => redactionCensor) }

/-! ## Theorems -/

/-- Helper: every branch of the pipeline answers with exactly the
correlation header set by the first middleware. -/
theorem handleRequest_resp_headers (cfg : AppConfig) (fresh : String)
    (uptime ts dur : Nat) (st : SrvState) (req : Req) :
    (handleRequest cfg fresh uptime ts dur st req).2.headers
      = [(requestIdHeader,
          processRequestId (getHeaderValue req.headers requestIdHeader) fresh)] := by
  rcases hr : runLimiter (makeLimiter cfg.rateLimit.globalPerMin) req.now st.limGlobal
    with ⟨gSt, gOut⟩
  rcases hra : (if isAuthPath req.path then
      runLimiter (makeLimiter cfg.rateLimit.authPerMin) req.now st.limAuth
    else (st.limAuth, LimOut.next)) with ⟨aSt, aOut⟩
  cases gOut with
  | reject s h => simp [handleRequest, hr]
  | next =>
      cases aOut with
      | reject s h => simp [handleRequest, hr, hra]
      | next =>
          rcases hdp : dispatchRoute cfg req uptime ts with _ | p
          · simp only [handleRequest, hr, hra, hdp]
            split <;> simp
          · obtain ⟨⟨s, body⟩, tmpl⟩ := p
            simp [handleRequest, hr, hra, hdp]

/-- Helper: a limiter rejection always carries status 429. -/
theorem runLimiter_reject_status (l : Limiter) (now : Nat) (w : Option WindowState)
    (s : Nat) (h : RateHeaders) :
    (runLimiter l now w).2 = LimOut.reject s h → s = 429 := by
  intro hrej
  cases l with
  | passThrough => simp [runLimiter] at hrej
  | fixedWindow n =>
      simp [runLimiter] at hrej
      rcases hd : limiterDecide n now w with ⟨st', ok, hdr⟩
      rw [hd] at hrej
      simp only at hrej
      split at hrej
      · cases hrej
      · injection hrej with h1 h2
        exact h1.symm

/-- C10: in every environment tier the GET /readyz handler returns
status 200 with body ok true; the 503 branch is unreachable because
the readiness result is the constant true, and the route dispatches to
exactly that handler for every GET /readyz request. -/
theorem C10_readyz_always_ok (cfg : AppConfig) :
    readyzHandler cfg = (200, [("ok", JVal.bool true)])
  ∧ (∀ (headers : List (String × String)) (bp : Option String) (now uptime ts : Nat),
      dispatchRoute cfg
        { method := "GET", path := "/readyz", headers := headers,
          bodyPassword := bp, now := now } uptime ts
        = some ((200, [("ok", JVal.bool true)]), "/readyz")) := by
  constructor
  · rfl
  · intro headers bp now uptime ts
    rfl

/-- C9: redaction is tier-independent and total on the configured
paths: two log records that differ only in the authorization header
value or in the password body field serialise to identical redacted
records, and each secret position carries the fixed censor string, so
no secret value survives into an emitted record. -/
theorem C9_log_redaction (r : LogRecord) (a1 a2 p1 p2 : String) :
    redactRecord { r with headersAuthorization := some a1, bodyPassword := some p1 }
      = redactRecord { r with headersAuthorization := some a2, bodyPassword := some p2 }
  ∧ (redactRecord
       { r with headersAuthorization := some a1, bodyPassword := some p1
       }).headersAuthorization = some redactionCensor
  ∧ (redactRecord
       { r with headersAuthorization := some a1, bodyPassword := some p1
       }).bodyPassword = some redactionCensor := by
  refine ⟨?_, rfl, rfl⟩
  simp [redactRecord]

/-- C7 counterexample: a second termination signal received while the
lifecycle is already ShuttingDown is not a no-op: starting from the
listening state, one signal leaves the process alive in the grace
period, but a second signal changes the state and forces exit status 1. -/
theorem C7_second_signal_counterexample :
    lifeStep (lifeStep initLife LifeEvent.signal) LifeEvent.signal
        ≠ lifeStep initLife LifeEvent.signal
  ∧ (lifeStep (lifeStep initLife LifeEvent.signal) LifeEvent.signal).exitCode = some 1
  ∧ (lifeStep initLife LifeEvent.signal).exitCode = none := by
  decide

/-- C7 amended: a second termination signal while ShuttingDown re-runs
shutdown, whose server.close call finds the server no longer listening
and invokes the callback with an error, so the process exits
immediately with status 1 instead of ignoring the signal. -/
theorem C7_second_signal_forces_exit (s : LifeState)
    (hp : s.phase = Phase.shuttingDown) (he : s.exitCode = none) :
    lifeStep s LifeEvent.signal = { s with exitCode := some 1 } := by
  obtain ⟨ph, t, ec⟩ := s
  cases hp
  cases he
  rfl

/-- C7 amended witness: the amended behaviour at the concrete state
reached by one signal from boot. -/
theorem C7_second_signal_forces_exit_witness :
    lifeStep (lifeStep initLife LifeEvent.signal) LifeEvent.signal
      = { lifeStep initLife LifeEvent.signal with exitCode := some 1 } :=
  C7_second_signal_forces_exit (lifeStep initLife LifeEvent.signal)
    (by decide) (by decide)

/-- C4: a ceiling of 0 yields the pass-through middleware: makeLimiter
returns the closure that only calls next(), running it admits every
request with no rate headers, and over any request sequence it admits
everything and keeps no window state. -/
theorem C4_zero_ceiling_pass_through :
    makeLimiter (JSNum.int 0) = Limiter.passThrough
  ∧ (∀ (now : Nat) (st : Option WindowState),
      runLimiter Limiter.passThrough now st = (st, LimOut.next))
  ∧ (∀ (times : List Nat) (st : Option WindowState),
      runLimiterSeq Limiter.passThrough times st
        = (st, List.replicate times.length true)) := by
  refine ⟨rfl, fun now st => rfl, fun times st => ?_⟩
  induction times with
  | nil => rfl
  | cons t ts ih =>
      simp [runLimiterSeq, runLimiter, LimOut.isNext, List.replicate, ih]

/-- Helper: within an unexpired window the counter advances by one per
request and every request keeping the count at or below the ceiling is
admitted. -/
theorem runLimiterSeq_in_window (N t0 : Nat) :
    ∀ (k c : Nat), c + k ≤ N →
      runLimiterSeq (Limiter.fixedWindow N) (List.replicate k t0)
          (some ⟨c, t0 + 60000⟩)
        = (some ⟨c + k, t0 + 60000⟩, List.replicate k true) := by
  intro k
  induction k with
  | zero => intro c hc; simp [runLimiterSeq]
  | succ k ih =>
      intro c hc
      have h1 : ¬ (t0 + 60000 ≤ t0) := by omega
      have h2 : c + 1 ≤ N := by omega
      have h3 := ih (c + 1) (by omega)
      have h4 : c + 1 + k = c + (k + 1) := by omega
      rw [h4] at h3
      simp [List.replicate_succ, runLimiterSeq, runLimiter, limiterDecide, limiterStep,
        h1, h2, h3, LimOut.isNext]

/-- C3: for a positive per-minute ceiling N, makeLimiter builds the
60-second fixed-window limiter; from a fresh window the first N
requests inside the window are admitted, the next request in the same
window is rejected with status 429 carrying the standard
limit/remaining/reset headers, and the first request at window expiry
is admitted again into a new window. -/
theorem C3_fixed_window_cycle (N t0 : Nat) (hN : 0 < N) :
    makeLimiter (JSNum.int (N : Int)) = Limiter.fixedWindow N
  ∧ runLimiterSeq (Limiter.fixedWindow N) (List.replicate N t0) none
      = (some ⟨N, t0 + 60000⟩, List.replicate N true)
  ∧ runLimiter (Limiter.fixedWindow N) t0 (some ⟨N, t0 + 60000⟩)
      = (some ⟨N + 1, t0 + 60000⟩, LimOut.reject 429 ⟨N, 0, 60⟩)
  ∧ runLimiter (Limiter.fixedWindow N) (t0 + 60000) (some ⟨N + 1, t0 + 60000⟩)
      = (some ⟨1, t0 + 60000 + 60000⟩, LimOut.next) := by
  refine ⟨?_, ?_, ?_, ?_⟩
  · have hle : ¬ ((N : Int) ≤ 0) := by omega
    simp [makeLimiter, hle]
  · obtain ⟨M, rfl⟩ := Nat.exists_eq_succ_of_ne_zero hN.ne'
    have h3 := runLimiterSeq_in_window (M + 1) t0 M 1 (by omega)
    have h4 : 1 + M = M + 1 := by omega
    rw [h4] at h3
    simp [List.replicate_succ, runLimiterSeq, runLimiter, limiterDecide, limiterStep,
      h3, LimOut.isNext]
  · have h1 : ¬ (t0 + 60000 ≤ t0) := by omega
    have h2 : ¬ (N + 1 ≤ N) := by omega
    have h5 : min (N + 1) N = N := by omega
    simp [runLimiter, limiterDecide, limiterStep, h1, h2, h5,
      Nat.add_sub_cancel_left]
  · simp [runLimiter, limiterDecide, limiterStep]

/-- C3 witness: the full cycle at ceiling 2 and window start 0. -/
theorem C3_fixed_window_cycle_witness :
    makeLimiter (JSNum.int (2 : Int)) = Limiter.fixedWindow 2
  ∧ runLimiterSeq (Limiter.fixedWindow 2) (List.replicate 2 0) none
      = (some ⟨2, 60000⟩, List.replicate 2 true)
  ∧ runLimiter (Limiter.fixedWindow 2) 0 (some ⟨2, 60000⟩)
      = (some ⟨3, 60000⟩, LimOut.reject 429 ⟨2, 0, 60⟩)
  ∧ runLimiter (Limiter.fixedWindow 2) 60000 (some ⟨3, 60000⟩)
      = (some ⟨1, 120000⟩, LimOut.next) :=
  C3_fixed_window_cycle 2 0 (by decide)

/-- C5: a request rejected by the global rate limiter, or by the auth
rate limiter on an auth-mounted path, short-circuits: the response is
the limiter rejection (a 429 carrying the standard rate headers) and
the http_request_duration_ms histogram receives no observation,
because both limiters precede the metrics timer middleware; any
rejection a limiter produces has status 429. -/
theorem C5_rejection_short_circuits (cfg : AppConfig) (fresh : String)
    (uptime ts dur : Nat) (st : SrvState) (req : Req) (s : Nat) (h : RateHeaders) :
    ((runLimiter (makeLimiter cfg.rateLimit.globalPerMin) req.now st.limGlobal).2
        = LimOut.reject s h →
      (handleRequest cfg fresh uptime ts dur st req).1.hist = st.hist
      ∧ (handleRequest cfg fresh uptime ts dur st req).2.status = s
      ∧ (handleRequest cfg fresh uptime ts dur st req).2.rate = some h)
  ∧ ((runLimiter (makeLimiter cfg.rateLimit.globalPerMin) req.now st.limGlobal).2
        = LimOut.next →
     isAuthPath req.path = true →
     (runLimiter (makeLimiter cfg.rateLimit.authPerMin) req.now st.limAuth).2
        = LimOut.reject s h →
      (handleRequest cfg fresh uptime ts dur st req).1.hist = st.hist
      ∧ (handleRequest cfg fresh uptime ts dur st req).2.status = s
      ∧ (handleRequest cfg fresh uptime ts dur st req).2.rate = some h)
  ∧ (∀ (l : Limiter) (now : Nat) (w : Option WindowState),
      (runLimiter l now w).2 = LimOut.reject s h → s = 429) := by
  refine ⟨?_, ?_, ?_⟩
  · intro hg
    rcases hr : runLimiter (makeLimiter cfg.rateLimit.globalPerMin) req.now st.limGlobal
      with ⟨gSt, gOut⟩
    rw [hr] at hg
    simp only at hg
    subst hg
    simp [handleRequest, hr]
  · intro hg hauth ha
    rcases hr : runLimiter (makeLimiter cfg.rateLimit.globalPerMin) req.now st.limGlobal
      with ⟨gSt, gOut⟩
    rw [hr] at hg
    simp only at hg
    subst hg
    rcases hra : runLimiter (makeLimiter cfg.rateLimit.authPerMin) req.now st.limAuth
      with ⟨aSt, aOut⟩
    rw [hra] at ha
    simp only at ha
    subst ha
    simp [handleRequest, hr, hra, hauth]
  · exact fun l now w hrej => runLimiter_reject_status l now w s h hrej

/-- C5 witness: with a global ceiling of 1 and a window already
holding one request, the next request in the window is rejected with
429 and the standard headers, and the histogram stays empty. -/
theorem C5_rejection_short_circuits_witness :
    (handleRequest (getConfig (envWith "RATE_LIMIT_DEFAULT_PER_MIN" "1")) "f" 5 1000 3
        { limGlobal := some ⟨1, 60000⟩, limAuth := none, hist := [] }
        { method := "GET", path := "/version", headers := [], bodyPassword := none,
          now := 0 }).1.hist = []
  ∧ (handleRequest (getConfig (envWith "RATE_LIMIT_DEFAULT_PER_MIN" "1")) "f" 5 1000 3
        { limGlobal := some ⟨1, 60000⟩, limAuth := none, hist := [] }
        { method := "GET", path := "/version", headers := [], bodyPassword := none,
          now := 0 }).2.status = 429
  ∧ (handleRequest (getConfig (envWith "RATE_LIMIT_DEFAULT_PER_MIN" "1")) "f" 5 1000 3
        { limGlobal := some ⟨1, 60000⟩, limAuth := none, hist := [] }
        { method := "GET", path := "/version", headers := [], bodyPassword := none,
          now := 0 }).2.rate = some ⟨1, 0, 60⟩ :=
  (C5_rejection_short_circuits (getConfig (envWith "RATE_LIMIT_DEFAULT_PER_MIN" "1")) "f"
    5 1000 3
    { limGlobal := some ⟨1, 60000⟩, limAuth := none, hist := [] }
    { method := "GET", path := "/version", headers := [], bodyPassword := none, now := 0 }
    429 ⟨1, 0, 60⟩).1 (by decide)

/-- C6 counterexample: completing a GET /metrics request does add an
observation to the http_request_duration_ms histogram: from a fresh
server in the test tier (all limiters disabled), one GET /metrics
request grows the histogram from empty to one observation labelled
GET /metrics 200. -/
theorem C6_metrics_observed_counterexample :
    initSrv.hist = []
  ∧ (handleRequest (getConfig (envWith "NODE_ENV" "test")) "fresh-id" 5 1000 3 initSrv
        { method := "GET", path := "/metrics", headers := [], bodyPassword := none,
          now := 0 }).1.hist
      = [{ method := "GET", route := "/metrics", status := 200, duration := 3 }] :=
  ⟨rfl, by decide⟩

/-- C6 amended: requests to GET /metrics are not excluded from the
histogram: every admitted GET /metrics request appends exactly one
observation, labelled with method GET, the route template /metrics and
status 200, and is answered with the exposition body. -/
theorem C6_metrics_request_observed (cfg : AppConfig) (fresh : String)
    (uptime ts dur : Nat) (st : SrvState) (req : Req)
    (hm : req.method = "GET") (hp : req.path = "/metrics")
    (hg : (runLimiter (makeLimiter cfg.rateLimit.globalPerMin) req.now st.limGlobal).2
            = LimOut.next) :
    (handleRequest cfg fresh uptime ts dur st req).1.hist
      = st.hist
        ++ [{ method := "GET", route := "/metrics", status := 200, duration := dur }]
  ∧ (handleRequest cfg fresh uptime ts dur st req).2.status = 200
  ∧ (handleRequest cfg fresh uptime ts dur st req).2.body = ResBody.exposition := by
  obtain ⟨m, p, hdrs, bp, now⟩ := req
  simp only at hm hp
  subst hm
  subst hp
  rcases hr : runLimiter (makeLimiter cfg.rateLimit.globalPerMin) now st.limGlobal
    with ⟨gSt, gOut⟩
  rw [hr] at hg
  simp only at hg
  subst hg
  have hauth : isAuthPath "/metrics" = false := by decide
  have hd : ∀ uptime ts,
      dispatchRoute cfg
        { method := "GET", path := "/metrics", headers := hdrs, bodyPassword := bp,
          now := now } uptime ts = none := fun _ _ => rfl
  simp [handleRequest, hr, hauth, hd]

/-- C6 amended witness: the amended behaviour at a concrete admitted
GET /metrics request in the development tier. -/
theorem C6_metrics_request_observed_witness :
    (handleRequest (getConfig emptyEnv) "w" 7 2000 11 initSrv
        { method := "GET", path := "/metrics", headers := [], bodyPassword := none,
          now := 0 }).1.hist
      = initSrv.hist
        ++ [{ method := "GET", route := "/metrics", status := 200, duration := 11 }]
  ∧ (handleRequest (getConfig emptyEnv) "w" 7 2000 11 initSrv
        { method := "GET", path := "/metrics", headers := [], bodyPassword := none,
          now := 0 }).2.status = 200
  ∧ (handleRequest (getConfig emptyEnv) "w" 7 2000 11 initSrv
        { method := "GET", path := "/metrics", headers := [], bodyPassword := none,
          now := 0 }).2.body = ResBody.exposition :=
  C6_metrics_request_observed (getConfig emptyEnv) "w" 7 2000 11 initSrv
    { method := "GET", path := "/metrics", headers := [], bodyPassword := none, now := 0 }
    rfl rfl (by decide)

/-- C1 counterexample: getConfig does not abort when a required
numeric field is set but does not parse as a non-negative integer: an
unparsable PORT silently resolves to the default 200, a negative PORT
is accepted as is, and an unparsable rate-limit ceiling resolves to
NaN inside the returned snapshot instead of stopping the boot. -/
theorem C1_no_abort_counterexample :
    (getConfig (envWith "PORT" "abc")).port = JSNum.int 200
  ∧ (getConfig (envWith "PORT" "-5")).port = JSNum.int (-5)
  ∧ (getConfig (envWith "RATE_LIMIT_DEFAULT_PER_MIN" "abc")).rateLimit.globalPerMin
      = JSNum.nan := by
  decide

/-- C1 amended: configuration resolution has no failure mode at all:
getConfig returns a snapshot for every environment; a PORT value that
does not coerce to a truthy number falls back to 200, an unparsable
rate-limit ceiling is carried into the snapshot as NaN rather than
rejected, and every missing numeric field receives its tier default. -/
theorem C1_resolution_never_aborts (e : EnvMap) :
    ((jsNumberOfEnv (e "PORT")).truthy = false → (getConfig e).port = JSNum.int 200)
  ∧ (∀ s, (e "RATE_LIMIT_DEFAULT_PER_MIN").or (e "RATE_LIMIT_PER_MINUTE") = some s →
        jsNumberOfString s = JSNum.nan →
        (getConfig e).rateLimit.globalPerMin = JSNum.nan)
  ∧ (e "RATE_LIMIT_DEFAULT_PER_MIN" = none → e "RATE_LIMIT_PER_MINUTE" = none →
        (getConfig e).rateLimit.globalPerMin
          = JSNum.int (if (getConfig e).env = "production" then 100
              else if (getConfig e).env = "development" then 1000 else 0))
  ∧ (e "RATE_LIMIT_AUTH_PER_MIN" = none → e "RATE_LIMIT_AUTHZ_PER_MINUTE" = none →
        (getConfig e).rateLimit.authPerMin
          = JSNum.int (if (getConfig e).env = "production" then 10 else 0))
  ∧ (e "PORT" = none → (getConfig e).port = JSNum.int 200) := by
  refine ⟨?_, ?_, ?_, ?_, ?_⟩
  · intro hp
    simp [getConfig, JSNum.orDefault, hp]
  · intro s hs hnan
    simp [getConfig, hs, hnan]
  · intro h1 h2
    simp [getConfig, h1, h2, Option.or]
  · intro h1 h2
    simp [getConfig, h1, h2, Option.or]
  · intro hp
    simp [getConfig, jsNumberOfEnv, JSNum.orDefault, JSNum.truthy, hp]

/-- C1 amended witness: concrete resolutions — an unparsable PORT
falls back to 200, the empty environment gets port 200, and the
development tier default global ceiling 1000. -/
theorem C1_resolution_never_aborts_witness :
    (getConfig (envWith "PORT" "abc")).port = JSNum.int 200
  ∧ (getConfig emptyEnv).port = JSNum.int 200
  ∧ (getConfig emptyEnv).rateLimit.globalPerMin = JSNum.int 1000 := by
  refine ⟨(C1_resolution_never_aborts (envWith "PORT" "abc")).1 (by decide),
          (C1_resolution_never_aborts emptyEnv).2.2.2.2 rfl, ?_⟩
  have h := (C1_resolution_never_aborts emptyEnv).2.2.1 rfl rfl
  exact h.trans (by decide)

/-- C2: the correlation middleware sets the x-request-id response
header to the inbound header value verbatim when that value is present
and non-blank after trimming, and to the freshly generated identifier
otherwise; every pipeline branch answers with that header, and the
same identifier appears in the bodies produced by the not-found
handler and by the error handler. -/
theorem C2_correlation (cfg : AppConfig) (fresh : String) (uptime ts dur : Nat)
    (st : SrvState) (req : Req) (err : JsError) :
    (handleRequest cfg fresh uptime ts dur st req).2.headers
      = [(requestIdHeader,
          processRequestId (getHeaderValue req.headers requestIdHeader) fresh)]
  ∧ (∀ v, getHeaderValue req.headers requestIdHeader = some v →
      trimChars v.data ≠ [] →
      processRequestId (getHeaderValue req.headers requestIdHeader) fresh = v)
  ∧ ((getHeaderValue req.headers requestIdHeader = none ∨
      (∃ v, getHeaderValue req.headers requestIdHeader = some v
            ∧ trimChars v.data = [])) →
      processRequestId (getHeaderValue req.headers requestIdHeader) fresh = fresh)
  ∧ ((runLimiter (makeLimiter cfg.rateLimit.globalPerMin) req.now st.limGlobal).2
        = LimOut.next →
     (isAuthPath req.path = true →
       (runLimiter (makeLimiter cfg.rateLimit.authPerMin) req.now st.limAuth).2
         = LimOut.next) →
     dispatchRoute cfg req uptime ts = none →
     (req.method = "GET" ∧ req.path = "/metrics" → False) →
      (handleRequest cfg fresh uptime ts dur st req).2.status = 404
      ∧ ("requestId",
          JVal.str (processRequestId (getHeaderValue req.headers requestIdHeader) fresh))
          ∈ jsonFields (handleRequest cfg fresh uptime ts dur st req).2.body)
  ∧ ("requestId",
        JVal.str (processRequestId (getHeaderValue req.headers requestIdHeader) fresh))
      ∈ jsonFields (handleThrow cfg fresh req err).body := by
  refine ⟨handleRequest_resp_headers cfg fresh uptime ts dur st req, ?_, ?_, ?_, ?_⟩
  · intro v hv ht
    have hv' : v ≠ "" := by
      intro hcon
      subst hcon
      exact ht rfl
    simp [processRequestId, hv, hv', ht]
  · rintro (hv | ⟨v, hv, ht⟩)
    · simp [processRequestId, hv]
    · simp [processRequestId, hv, ht]
  · intro hg ha hdp hnm
    rcases hr : runLimiter (makeLimiter cfg.rateLimit.globalPerMin) req.now st.limGlobal
      with ⟨gSt, gOut⟩
    rw [hr] at hg
    simp only at hg
    subst hg
    rcases hra : (if isAuthPath req.path then
        runLimiter (makeLimiter cfg.rateLimit.authPerMin) req.now st.limAuth
      else (st.limAuth, LimOut.next)) with ⟨aSt, aOut⟩
    have haOut : aOut = LimOut.next := by
      by_cases hap : isAuthPath req.path
      · rw [if_pos hap] at hra
        have := ha hap
        rw [hra] at this
        simpa using this
      · rw [if_neg hap] at hra
        simpa using (congrArg Prod.snd hra).symm
    subst haOut
    simp only [handleRequest, hr, hra, hdp]
    rw [if_neg hnm]
    simp [notFoundHandler, jsonFields, jsonOptStr]
  · by_cases hp : isProduction cfg = true <;>
      simp [handleThrow, errorHandler, jsonFields, jsonOptStr, hp]

/-- C2 witness: a request carrying header X-Request-Id abc-123 to an
unmatched path is answered 404 echoing exactly abc-123 as its
correlation identifier, in the header and in the body. -/
theorem C2_correlation_witness :
    processRequestId
        (getHeaderValue [("X-Request-Id", "abc-123")] requestIdHeader) "fresh"
      = "abc-123"
  ∧ (handleRequest (getConfig (envWith "NODE_ENV" "test")) "fresh" 5 1000 3 initSrv
      { method := "GET", path := "/nope", headers := [("X-Request-Id", "abc-123")],
        bodyPassword := none, now := 0 }).2.status = 404
  ∧ ("requestId", JVal.str "abc-123")
      ∈ jsonFields (handleRequest (getConfig (envWith "NODE_ENV" "test")) "fresh" 5 1000 3
          initSrv
          { method := "GET", path := "/nope", headers := [("X-Request-Id", "abc-123")],
            bodyPassword := none, now := 0 }).2.body := by
  have h := C2_correlation (getConfig (envWith "NODE_ENV" "test")) "fresh" 5 1000 3 initSrv
    { method := "GET", path := "/nope", headers := [("X-Request-Id", "abc-123")],
      bodyPassword := none, now := 0 }
    { status := none, message := none, stack := "" }
  have h404 := h.2.2.2.1 (by decide) (fun hap => by simp at hap; exact absurd hap (by decide))
    (by decide) (by decide)
  exact ⟨h.2.1 "abc-123" (by decide) (by decide), h404.1, h404.2⟩

/-- C8: for a request whose handler throws, the pipeline response
carries the declared positive status of the error (500 when the status
field is absent), a body with the error message and the correlation
identifier computed by the correlation middleware, and the stack field
exactly when the tier is not production. -/
theorem C8_error_response (cfg : AppConfig) (fresh : String) (req : Req) (err : JsError) :
    (∀ n : Int, err.status = some n → 0 < n →
        (handleThrow cfg fresh req err).status = n.toNat)
  ∧ (err.status = none → (handleThrow cfg fresh req err).status = 500)
  ∧ (∀ m, err.message = some m → m ≠ "" →
        ("error", JVal.str m) ∈ jsonFields (handleThrow cfg fresh req err).body)
  ∧ ("requestId",
        JVal.str (processRequestId (getHeaderValue req.headers requestIdHeader) fresh))
      ∈ jsonFields (handleThrow cfg fresh req err).body
  ∧ (isProduction cfg = false →
        ("stack", JVal.str err.stack) ∈ jsonFields (handleThrow cfg fresh req err).body)
  ∧ (isProduction cfg = true →
        ∀ v, ("stack", v) ∉ jsonFields (handleThrow cfg fresh req err).body) := by
  refine ⟨?_, ?_, ?_, ?_, ?_, ?_⟩
  · intro n hs hpos
    simp [handleThrow, errorHandler, errStatusOr500, hs, hpos.ne']
  · intro hs
    simp [handleThrow, errorHandler, errStatusOr500, hs]
  · intro m hm hne
    simp [handleThrow, errorHandler, errMessageOrDefault, hm, hne, jsonFields]
  · by_cases hp : isProduction cfg = true <;>
      simp [handleThrow, errorHandler, jsonFields, jsonOptStr, hp]
  · intro hp
    simp [handleThrow, errorHandler, jsonFields, hp]
  · intro hp v
    simp [handleThrow, errorHandler, jsonFields, hp]

/-- C8 witness: a thrown error with status 418 in the development tier
yields response status 418 with the stack in the body; the same error
in the production tier omits the stack. -/
theorem C8_error_response_witness :
    (handleThrow (getConfig emptyEnv) "w"
        { method := "GET", path := "/boom", headers := [], bodyPassword := none, now := 0 }
        { status := some 418, message := some "teapot", stack := "trace" }).status = 418
  ∧ ("stack", JVal.str "trace")
      ∈ jsonFields (handleThrow (getConfig emptyEnv) "w"
        { method := "GET", path := "/boom", headers := [], bodyPassword := none, now := 0 }
        { status := some 418, message := some "teapot", stack := "trace" }).body
  ∧ (∀ v, ("stack", v)
      ∉ jsonFields (handleThrow (getConfig (envWith "NODE_ENV" "production")) "w"
        { method := "GET", path := "/boom", headers := [], bodyPassword := none, now := 0 }
        { status := some 418, message := some "teapot", stack := "trace" }).body) :=
  ⟨(C8_error_response (getConfig emptyEnv) "w"
      { method := "GET", path := "/boom", headers := [], bodyPassword := none, now := 0 }
      { status := some 418, message := some "teapot", stack := "trace" }).1 418 rfl
      (by decide),
   (C8_error_response (getConfig emptyEnv) "w"
      { method := "GET", path := "/boom", headers := [], bodyPassword := none, now := 0 }
      { status := some 418, message := some "teapot", stack := "trace" }).2.2.2.2.1
      (by decide),
   (C8_error_response (getConfig (envWith "NODE_ENV" "production")) "w"
      { method := "GET", path := "/boom", headers := [], bodyPassword := none, now := 0 }
      { status := some 418, message := some "teapot", stack := "trace" }).2.2.2.2.2
      (by decide)⟩

end NexusSentinel
